import Mathlib

/-!
Shallow embedding of `carla_real_traffic_scenarios/ngsim/scenario.py`
(class `NGSimLaneChangeScenario`): the maneuver state machine, alignment
debounce, progress scorer, dataset partitioner and episode lifecycle.

Conventions of the embedding:
* Python floats are modelled as `ℚ`; every comparison the source performs
  on floats is exact at the inputs used here, so no rounding model is needed.
* Angles: the source computes `normalize_angle(np.deg2rad(x)) < np.deg2rad(10)`.
  `deg2rad` is multiplication by the positive constant pi/180, which commutes
  with wrapping and preserves strict comparisons, so the whole alignment test
  is expressed in degrees (wrap interval (-180, 180], tolerance 10).
* External collaborators (CARLA map queries, the early-stop monitor, the
  trajectory recording) are modelled as per-frame inputs in a `Frame` record;
  the mutable attributes of the scenario object form `EpisodeState`.
* `int()` of Python truncates toward zero: `ratTrunc`.
-/

namespace NGSim

/-- `ChauffeurCommand` from `carla_real_traffic_scenarios.scenario`
(repository code outside src/): the advisory command enum used by the
scenario; only the three members that `scenario.py` mentions are modelled. -/
inductive ChauffeurCommand where
  | LANE_FOLLOW
  | CHANGE_LANE_LEFT
  | CHANGE_LANE_RIGHT
  deriving DecidableEq

/-- `DatasetMode` from `carla_real_traffic_scenarios.ngsim` (outside src/). -/
inductive DatasetMode where
  | TRAIN
  | VALIDATION
  deriving DecidableEq

/-- `RewardType` from `carla_real_traffic_scenarios.reward` (outside src/):
`step` only tests `reward_type == RewardType.DENSE`. -/
inductive RewardType where
  | DENSE
  | SPARSE
  deriving DecidableEq

/-- scenario.py line 20. -/
def CROSSTRACK_ERROR_TOLERANCE : ℚ := 3 / 10

/-- scenario.py line 21 (degrees). -/
def YAW_DEG_ERRORS_TOLERANCE : ℚ := 10

/-- scenario.py line 22. -/
def TARGET_LANE_ALIGNMENT_FRAMES : ℕ := 10

/-- Modelled from the spec: `normalize_angle` from
`carla_real_traffic_scenarios.utils.geometry` is not under src/; the spec
says the yaw error is the angular difference "wrapped to (-pi, pi]".
Expressed in degrees: wrap `d` into (-180, 180] by subtracting the right
multiple of 360. -/
def normalize_angle (d : ℚ) : ℚ := d - 360 * ⌈(d - 180) / 360⌉

/-- The pose-dependent inputs of `_is_lane_aligned` (scenario.py lines
141-142): the planar distance to the waypoint (`distance_between_on_plane`)
and the raw yaw difference `ego.rotation.yaw - waypoint.rotation.yaw` in
degrees, both produced by external collaborators. -/
structure PoseErr where
  crosstrack_error : ℚ
  yaw_diff_deg : ℚ
  deriving DecidableEq

/-- scenario.py lines 141-144: the per-frame aligned test of
`_is_lane_aligned` (tolerances compared in degrees, see the file header). -/
def aligned_with_target_lane (p : PoseErr) : Bool :=
  decide (p.crosstrack_error < CROSSTRACK_ERROR_TOLERANCE) &&
  decide (normalize_angle p.yaw_diff_deg < YAW_DEG_ERRORS_TOLERANCE)

/-- scenario.py lines 140-149: `_is_lane_aligned`. Takes the current value of
`self._target_alignment_counter`, returns (the Bool result, the new counter). -/
def is_lane_aligned (counter : ℕ) (p : PoseErr) : Bool × ℕ :=
  let c := if aligned_with_target_lane p then counter + 1 else 0
  (decide (c = TARGET_LANE_ALIGNMENT_FRAMES), c)

/-- Iterate `_is_lane_aligned` over a sequence of frames, collecting each
frame's returned Bool and the final counter. -/
def align_run (counter : ℕ) : List PoseErr → List Bool × ℕ
  | [] => ([], counter)
  | p :: ps =>
    let r := is_lane_aligned counter p
    let rest := align_run r.2 ps
    (r.1 :: rest.1, rest.2)

/-- Python `int()` truncates toward zero (scenario.py line 186). -/
def ratTrunc (q : ℚ) : ℤ := if 0 ≤ q then ⌊q⌋ else ⌈q⌉

/-- The external, per-frame inputs of `step` / `_get_progress_change`
(scenario.py lines 104-123, 166-213), produced by the CARLA map, the
geometry helpers and the early-stop monitor:
* `lane_id`: `world_map.get_waypoint(location).lane_id` for the agent;
* `pose`: the crosstrack/yaw errors against that waypoint (lines 141-142);
* `timeout_or_stuck`: `self._early_stop_monitor(ego_transform)` (line 120);
* `dist_from_start` / `dist_from_target`: `current_location.distance(...)`
  to the start/target waypoints resolved on lines 198-210;
* `dist_to_target_lane`: `current_location.distance(target_lane_location)`
  used by the lazy initialisation on lines 174-177. -/
structure Frame where
  lane_id : ℤ
  pose : PoseErr
  timeout_or_stuck : Bool
  dist_from_start : ℚ
  dist_from_target : ℚ
  dist_to_target_lane : ℚ
  deriving DecidableEq

/-- The mutable per-episode attributes of `NGSimLaneChangeScenario`
(reset on scenario.py lines 76-100) together with the reset-time constants
(start/target lane id, the maneuver's command, the reward type). -/
structure EpisodeState where
  start_lane_id : ℤ
  target_lane_id : ℤ
  chauffeur_command : ChauffeurCommand
  reward_type : RewardType
  target_alignment_counter : ℕ
  previous_chauffeur_command : ChauffeurCommand
  previous_progress : ℚ
  total_distance_m : Option ℚ
  checkpoints_distance_m : Option ℚ
  deriving DecidableEq

/-- scenario.py line 173: `checkpoints_number = 10`. -/
def checkpoints_number : ℕ := 10

/-- scenario.py lines 179-195: `_calc_progress_change`. Inputs: the fixed
episode distances, the stored `self._previous_progress`, and the two
distances of the current position from the start/target waypoints. Returns
(`progress_change`, the new `self._previous_progress`). -/
def calc_progress_change (total chkpt prev dist_from_start dist_from_target : ℚ) :
    ℚ × ℚ :=
  let distance_traveled := total - dist_from_target
  let checkpoints_passed : ℤ := ratTrunc (distance_traveled / chkpt)
  let passed_target_centerline : Bool :=
    decide (total < dist_from_start) && decide (dist_from_target < dist_from_start)
  let progress : ℚ :=
    (if passed_target_centerline then 0 else 1) *
      ((checkpoints_passed : ℚ) / (checkpoints_number : ℚ))
  (progress - prev, progress)

/-- scenario.py lines 166-213: `_get_progress_change`. Returns the progress
change and the updated episode state (lazy `_total_distance_m` and
`_checkpoints_distance_m` initialisation, `_previous_progress` update).
The waypoint resolution of lines 198-210 is external; the frame carries the
resulting distances. -/
def get_progress_change (s : EpisodeState) (f : Frame) : ℚ × EpisodeState :=
  let on_start_lane : Bool := f.lane_id == s.start_lane_id
  let on_target_lane : Bool := f.lane_id == s.target_lane_id
  let s1 :=
    if s.total_distance_m = none then
      { s with
        total_distance_m := some f.dist_to_target_lane
        checkpoints_distance_m := some (f.dist_to_target_lane / (checkpoints_number : ℚ)) }
    else s
  if on_start_lane || on_target_lane then
    let r := calc_progress_change (s1.total_distance_m.getD 0)
      (s1.checkpoints_distance_m.getD 0) s1.previous_progress
      f.dist_from_start f.dist_from_target
    (r.1, { s1 with previous_progress := r.2 })
  else
    (0, s1)

/-- Iterate `_get_progress_change` over a list of frames, collecting the
per-frame progress changes and the final state. -/
def progress_run (s : EpisodeState) : List Frame → List ℚ × EpisodeState
  | [] => ([], s)
  | f :: fs =>
    let r := get_progress_change s f
    let rest := progress_run r.2 fs
    (r.1 :: rest.1, rest.2)

/-- What `step` returns (scenario.py line 138): the `ScenarioStepResult`
fields the claims are about, with the info dict's
`target_alignment_counter` entry (line 136). -/
structure StepResult where
  chauffeur_command : ChauffeurCommand
  reward : ℚ
  done : Bool
  target_alignment_counter : ℕ
  deriving DecidableEq

/-- scenario.py line 117: `scenario_finished_with_success = on_target_lane &
self._is_lane_aligned(...)`. Python `&` on bools does not short-circuit,
so `_is_lane_aligned` is evaluated (and the counter mutated) on every step;
the conjunction itself is as written. -/
def step_success (s : EpisodeState) (f : Frame) : Bool :=
  (f.lane_id == s.target_lane_id) && (is_lane_aligned s.target_alignment_counter f.pose).1

/-- scenario.py line 115. -/
def step_not_on_expected_lanes (s : EpisodeState) (f : Frame) : Bool :=
  !((f.lane_id == s.start_lane_id) || (f.lane_id == s.target_lane_id))

/-- scenario.py lines 119-120. -/
def step_early_stop (s : EpisodeState) (f : Frame) : Bool :=
  !step_success s f && (f.timeout_or_stuck || step_not_on_expected_lanes s f)

/-- The value of `self._target_alignment_counter` after the unconditional
`_is_lane_aligned` call of scenario.py line 117. -/
def step_counter (s : EpisodeState) (f : Frame) : ℕ :=
  (is_lane_aligned s.target_alignment_counter f.pose).2

/-- The `_get_progress_change` call of scenario.py line 123: it runs on the
state whose counter was already mutated by line 117 (it does not read the
counter, but the embedding keeps the order of the source). -/
def step_progress (s : EpisodeState) (f : Frame) : ℚ × EpisodeState :=
  get_progress_change { s with target_alignment_counter := step_counter s f } f

/-- scenario.py lines 104-138: `step`. The trajectory-replay and
background-traffic calls (lines 105-107) have no effect on the returned
result and are outside the model; everything else follows the source
line by line. -/
def step (s : EpisodeState) (f : Frame) : StepResult × EpisodeState :=
  let on_start_lane : Bool := f.lane_id == s.start_lane_id
  let chauffeur_command :=
    if on_start_lane then s.chauffeur_command else ChauffeurCommand.LANE_FOLLOW
  let success := step_success s f
  let early_stop := step_early_stop s f
  let done := success || early_stop
  let pr := step_progress s f
  let reward : ℚ :=
    (if s.reward_type = RewardType.DENSE then 1 else 0) * pr.1 +
      (if success then 1 else 0) + (if early_stop then -1 else 0)
  ({ chauffeur_command := chauffeur_command
     reward := reward
     done := done
     target_alignment_counter := step_counter s f },
   { pr.2 with previous_chauffeur_command := chauffeur_command })

/-- `LaneChangeInstant` from `ngsim_recording` (repository code outside
src/): the fields scenario.py uses, plus `str_id` standing for the stable
`str(lane_change_instant)` serialization hashed by `determine_split`. -/
structure LaneChangeInstant where
  frame_start : ℤ
  vehicle_id : ℕ
  chauffeur_command : ChauffeurCommand
  str_id : String
  deriving DecidableEq

/-- scenario.py lines 48-54: `determine_split`. `sha1_int` stands for the
external `int(hashlib.sha1(str(x).encode()).hexdigest(), 16)` computation,
a fixed deterministic function of the identity string; the comparison
`(hash_num % 100) / 100 < 0.8` is exact in floating point for the integer
numerators 0..99, so it is modelled exactly over `ℚ`. -/
def determine_split (sha1_int : String → ℕ) (instant_str : String) : DatasetMode :=
  let split_frac : ℚ := 8 / 10
  let hash_num := sha1_int instant_str
  if (((hash_num % 100 : ℕ) : ℚ) / 100) < split_frac then
    DatasetMode.TRAIN
  else
    DatasetMode.VALIDATION

/-- scenario.py lines 56-58: the construction-time filtering of
`self._lane_change_instants`. Construction performs no emptiness check:
this function is total and may return `[]`. -/
def init_lane_change_instants (sha1_int : String → ℕ)
    (all_instants : List LaneChangeInstant) (dataset_mode : DatasetMode) :
    List LaneChangeInstant :=
  all_instants.filter (fun lci => determine_split sha1_int lci.str_id == dataset_mode)

/-- scenario.py line 76: `random.choice(self._lane_change_instants)`,
modelled with an arbitrary draw index `k`; on an empty list the source
raises `IndexError`, modelled as `none`. -/
def random_choice {α : Type} (l : List α) (k : ℕ) : Option α :=
  l.get? (k % l.length)

/-- scenario.py line 84: `max(self._lane_change.frame_start -
FRAMES_BEFORE_MANUVEUR, 0)`. `FRAMES_BEFORE_MANUVEUR` is an imported
constant (outside src/), so it is a parameter. -/
def frame_manuveur_start (m : LaneChangeInstant) (frames_before : ℤ) : ℤ :=
  max (m.frame_start - frames_before) 0

/-- scenario.py lines 76-100: the state produced by `reset` for a chosen
maneuver `m`, and the frame passed to `self._ngsim_recording.reset`
(line 85: `frame_manuveur_start - 1`). The lane waypoints resolved on lines
96-100 are external; their ids are parameters. -/
def scenario_reset (m : LaneChangeInstant) (frames_before : ℤ)
    (reward_type : RewardType) (start_lane_id target_lane_id : ℤ) :
    EpisodeState × ℤ :=
  ({ start_lane_id := start_lane_id
     target_lane_id := target_lane_id
     chauffeur_command := m.chauffeur_command
     reward_type := reward_type
     target_alignment_counter := 0
     previous_chauffeur_command := m.chauffeur_command
     previous_progress := 0
     total_distance_m := none
     checkpoints_distance_m := none },
   frame_manuveur_start m frames_before - 1)

/-- The scenario object's lifecycle state: `episode = none` models the
situation before the first `reset`, where the per-episode attributes of
`NGSimLaneChangeScenario` are unset (`self._ngsim_vehicles_in_carla = None`,
`self._lane_change` not yet assigned), so `step` cannot run (lines 105-107
raise `AttributeError`). Nothing in the source ever marks a terminated
episode: a completed `step` always leaves a usable episode behind. -/
structure NGSimScn where
  lane_change_instants : List LaneChangeInstant
  dataset_mode : DatasetMode
  episode : Option EpisodeState
  deriving DecidableEq

/-- scenario.py lines 104-138 at object level: `step` with the lifecycle
made explicit. Before any `reset` (episode `none`) the call fails
(`AttributeError` in the source, `none` here); otherwise it returns the
`ScenarioStepResult` and the updated object — with no terminal-state guard. -/
def scn_step (sc : NGSimScn) (f : Frame) : Option (StepResult × NGSimScn) :=
  match sc.episode with
  | none => none
  | some es =>
    let r := step es f
    some (r.1, { sc with episode := some r.2 })

/-! Concrete inputs used by the per-claim witnesses and counterexamples.
All are reachable configurations: the episode states are what `reset`
followed by a first progress query produces (counter values arise from
aligned frames, `total_distance_m` from the lazy initialisation), and the
frames carry geometry any CARLA map query may return. -/

/-- Episode with 9 consecutive aligned frames already accumulated. -/
def c1_state : EpisodeState :=
  { start_lane_id := 1, target_lane_id := 2
    chauffeur_command := ChauffeurCommand.CHANGE_LANE_LEFT
    reward_type := RewardType.DENSE
    target_alignment_counter := 9
    previous_chauffeur_command := ChauffeurCommand.CHANGE_LANE_LEFT
    previous_progress := 0
    total_distance_m := some 10, checkpoints_distance_m := some 1 }

/-- Agent on the target lane, perfectly aligned, external timeout firing. -/
def c1_frame : Frame :=
  { lane_id := 2, pose := ⟨0, 0⟩, timeout_or_stuck := true
    dist_from_start := 10, dist_from_target := 0, dist_to_target_lane := 0 }

/-- Episode mid-run with counter 3. -/
def c3_state : EpisodeState :=
  { start_lane_id := 1, target_lane_id := 2
    chauffeur_command := ChauffeurCommand.CHANGE_LANE_LEFT
    reward_type := RewardType.DENSE
    target_alignment_counter := 3
    previous_chauffeur_command := ChauffeurCommand.CHANGE_LANE_LEFT
    previous_progress := 0
    total_distance_m := some 10, checkpoints_distance_m := some 1 }

/-- Agent on the START lane (not the target lane), centred in it. -/
def c3_frame : Frame :=
  { lane_id := 1, pose := ⟨0, 0⟩, timeout_or_stuck := false
    dist_from_start := 0, dist_from_target := 10, dist_to_target_lane := 10 }

/-- Episode whose fixed total distance is 10 and previous progress 1/2. -/
def c4_state : EpisodeState :=
  { start_lane_id := 1, target_lane_id := 2
    chauffeur_command := ChauffeurCommand.CHANGE_LANE_LEFT
    reward_type := RewardType.DENSE
    target_alignment_counter := 0
    previous_chauffeur_command := ChauffeurCommand.CHANGE_LANE_LEFT
    previous_progress := 1 / 2
    total_distance_m := some 10, checkpoints_distance_m := some 1 }

/-- Overshoot frame: far past the target centerline, still on the start lane. -/
def c4_frame : Frame :=
  { lane_id := 1, pose := ⟨0, 0⟩, timeout_or_stuck := false
    dist_from_start := 15, dist_from_target := 12, dist_to_target_lane := 10 }

/-- A later frame, still overshooting (now on the target lane). -/
def c4_frame2 : Frame :=
  { lane_id := 2, pose := ⟨0, 0⟩, timeout_or_stuck := false
    dist_from_start := 20, dist_from_target := 11, dist_to_target_lane := 10 }

/-- Episode right after the first progress query (previous progress 0,
total distance fixed at 10, checkpoint distance 1). -/
def c5_state : EpisodeState :=
  { start_lane_id := 1, target_lane_id := 2
    chauffeur_command := ChauffeurCommand.CHANGE_LANE_LEFT
    reward_type := RewardType.DENSE
    target_alignment_counter := 0
    previous_chauffeur_command := ChauffeurCommand.CHANGE_LANE_LEFT
    previous_progress := 0
    total_distance_m := some 10, checkpoints_distance_m := some 1 }

/-- The agent drove far away along the start lane: 110 m from the target
waypoint, 5 m from the start waypoint (so not past the target centerline). -/
def c5_frame : Frame :=
  { lane_id := 1, pose := ⟨0, 0⟩, timeout_or_stuck := false
    dist_from_start := 5, dist_from_target := 110, dist_to_target_lane := 10 }

/-- A one-instant recorded dataset. -/
def c7_all : List LaneChangeInstant :=
  [{ frame_start := 100, vehicle_id := 1
     chauffeur_command := ChauffeurCommand.CHANGE_LANE_LEFT, str_id := "i1" }]

/-- A hash under which the single instant lands in TRAIN (hash 0,
0 % 100 = 0 < 80), leaving the VALIDATION partition empty. -/
def c7_hash : String → ℕ := fun _ => 0

/-- The maneuver of the C8 scenario: frame_start = 100. -/
def c8_m : LaneChangeInstant :=
  { frame_start := 100, vehicle_id := 7
    chauffeur_command := ChauffeurCommand.CHANGE_LANE_LEFT, str_id := "m" }

/-- A freshly reset episode. -/
def c9_state : EpisodeState :=
  { start_lane_id := 1, target_lane_id := 2
    chauffeur_command := ChauffeurCommand.CHANGE_LANE_LEFT
    reward_type := RewardType.SPARSE
    target_alignment_counter := 0
    previous_chauffeur_command := ChauffeurCommand.CHANGE_LANE_LEFT
    previous_progress := 0
    total_distance_m := none, checkpoints_distance_m := none }

/-- Agent off both expected lanes: the step terminates with early stop. -/
def c9_frame : Frame :=
  { lane_id := 5, pose := ⟨1, 0⟩, timeout_or_stuck := false
    dist_from_start := 0, dist_from_target := 0, dist_to_target_lane := 10 }

/-- Scenario object after `reset`. -/
def c9_scn : NGSimScn :=
  { lane_change_instants := [], dataset_mode := DatasetMode.TRAIN
    episode := some c9_state }

/-- Scenario object before any `reset`. -/
def c9_none_scn : NGSimScn :=
  { lane_change_instants := [], dataset_mode := DatasetMode.TRAIN
    episode := none }

/-! Helper lemmas. -/

lemma is_lane_aligned_pos (c : ℕ) (p : PoseErr) (h : aligned_with_target_lane p = true) :
    is_lane_aligned c p = (decide (c + 1 = TARGET_LANE_ALIGNMENT_FRAMES), c + 1) := by
  simp [is_lane_aligned, h]

lemma is_lane_aligned_neg (c : ℕ) (p : PoseErr) (h : aligned_with_target_lane p = false) :
    is_lane_aligned c p = (false, 0) := by
  simp [is_lane_aligned, h, TARGET_LANE_ALIGNMENT_FRAMES]

lemma align_run_append (c : ℕ) (ps qs : List PoseErr) :
    align_run c (ps ++ qs) =
      ((align_run c ps).1 ++ (align_run (align_run c ps).2 qs).1,
        (align_run (align_run c ps).2 qs).2) := by
  induction ps generalizing c with
  | nil => simp [align_run]
  | cons p ps ih => simp [align_run, ih]

lemma align_run_aligned (ps : List PoseErr)
    (h : ∀ q ∈ ps, aligned_with_target_lane q = true) (c : ℕ) :
    (align_run c ps).2 = c + ps.length ∧
      ∀ i, i < ps.length → (align_run c ps).1.get? i =
        some (decide (c + i + 1 = TARGET_LANE_ALIGNMENT_FRAMES)) := by
  induction ps generalizing c with
  | nil => simp [align_run]
  | cons p ps ih =>
    have hp := h p (List.mem_cons_self _ _)
    have hrest := ih (fun q hq => h q (List.mem_cons_of_mem _ hq)) (c + 1)
    constructor
    · simp only [align_run, is_lane_aligned_pos _ _ hp]
      rw [hrest.1]
      simp
      omega
    · intro i hi
      cases i with
      | zero => simp [align_run, is_lane_aligned_pos _ _ hp]
      | succ j =>
        simp only [align_run, is_lane_aligned_pos _ _ hp, List.get?]
        rw [show c + (j + 1) + 1 = c + 1 + j + 1 from by omega]
        exact hrest.2 j (by simpa using hi)

lemma align_run_all_false (ps : List PoseErr)
    (h : ∀ q ∈ ps, aligned_with_target_lane q = true) (c : ℕ)
    (hc : c + ps.length < TARGET_LANE_ALIGNMENT_FRAMES) :
    ∀ b ∈ (align_run c ps).1, b = false := by
  induction ps generalizing c with
  | nil => simp [align_run]
  | cons p ps ih =>
    have hp := h p (List.mem_cons_self _ _)
    intro b hb
    simp only [align_run, is_lane_aligned_pos _ _ hp, List.mem_cons] at hb
    rcases hb with hb | hb
    · subst hb
      simp only [decide_eq_false_iff_not]
      simp at hc
      omega
    · exact ih (fun q hq => h q (List.mem_cons_of_mem _ hq)) (c + 1)
        (by simp at hc ⊢; omega) b hb

lemma normalize_angle_zero : normalize_angle 0 = 0 := by
  rw [normalize_angle]
  norm_num

lemma aligned_00 : aligned_with_target_lane ⟨0, 0⟩ = true := by
  simp only [aligned_with_target_lane, CROSSTRACK_ERROR_TOLERANCE,
    YAW_DEG_ERRORS_TOLERANCE, normalize_angle_zero]
  norm_num

lemma aligned_10 : aligned_with_target_lane ⟨1, 0⟩ = false := by
  simp only [aligned_with_target_lane, CROSSTRACK_ERROR_TOLERANCE,
    YAW_DEG_ERRORS_TOLERANCE, normalize_angle_zero]
  norm_num

/-- C2: the alignment detector reports completion exactly once, on the 10th
consecutive aligned frame. Starting from a reset counter: (i) 9 aligned
frames followed by a non-aligned frame never report completion; (ii) the
counter is exactly 0 after the first non-aligned frame; (iii) in a streak
of aligned frames the report at frame i (0-based) is `true` exactly when
i = 9, i.e. on the 10th frame and on no other. -/
theorem c2_alignment_debounce (ps : List PoseErr) (p : PoseErr)
    (hps : ∀ q ∈ ps, aligned_with_target_lane q = true)
    (hp : aligned_with_target_lane p = false) :
    (ps.length = 9 → ∀ b ∈ (align_run 0 (ps ++ [p])).1, b = false) ∧
    (align_run 0 (ps ++ [p])).2 = 0 ∧
    (∀ i, i < ps.length →
      ((align_run 0 ps).1.get? i = some true ↔ i = 9)) := by
  refine ⟨?_, ?_, ?_⟩
  · intro hlen b hb
    rw [align_run_append] at hb
    rcases List.mem_append.mp hb with hb | hb
    · exact align_run_all_false ps hps 0
        (by rw [hlen]; simp [TARGET_LANE_ALIGNMENT_FRAMES]) b hb
    · have : (align_run (align_run 0 ps).2 [p]).1 = [false] := by
        simp [align_run, is_lane_aligned_neg _ _ hp]
      rw [this] at hb
      simpa using hb
  · rw [align_run_append]
    simp [align_run, is_lane_aligned_neg _ _ hp]
  · intro i hi
    rw [(align_run_aligned ps hps 0).2 i hi]
    rcases eq_or_ne i 9 with h9 | h9
    · subst h9
      simp [TARGET_LANE_ALIGNMENT_FRAMES]
    · simp only [Option.some_inj]
      constructor
      · intro hdec
        have := of_decide_eq_true hdec
        simp [TARGET_LANE_ALIGNMENT_FRAMES] at this
        omega
      · intro h
        exact absurd h h9

/-- Witness for C2 at a concrete streak: nine perfectly centred frames
followed by an off-centre frame (crosstrack 1 ≥ 0.3). -/
theorem c2_witness :
    (∀ b ∈ (align_run 0 (List.replicate 9 (PoseErr.mk 0 0) ++ [PoseErr.mk 1 0])).1,
      b = false) ∧
    (align_run 0 (List.replicate 9 (PoseErr.mk 0 0) ++ [PoseErr.mk 1 0])).2 = 0 ∧
    ((align_run 0 (List.replicate 9 (PoseErr.mk 0 0))).1.get? 8 = some true ↔ 8 = 9) := by
  have h := c2_alignment_debounce (List.replicate 9 (PoseErr.mk 0 0)) (PoseErr.mk 1 0)
    (fun q hq => by rw [List.eq_of_mem_replicate hq]; exact aligned_00) aligned_10
  exact ⟨h.1 (by simp), h.2.1, h.2.2 8 (by simp)⟩

lemma normalize_angle_neg90 : normalize_angle (-90) = -90 := by
  rw [normalize_angle]
  norm_num

/-- C10: the yaw-error comparison of `_is_lane_aligned` takes no absolute
value: whenever the normalized heading difference is negative (any
magnitude), the yaw condition `yaw_error < 10 deg` holds, so the aligned
verdict reduces to the crosstrack test alone. -/
theorem c10_yaw_no_abs (p : PoseErr) (h : normalize_angle p.yaw_diff_deg < 0) :
    decide (normalize_angle p.yaw_diff_deg < YAW_DEG_ERRORS_TOLERANCE) = true ∧
    (aligned_with_target_lane p = true ↔
      p.crosstrack_error < CROSSTRACK_ERROR_TOLERANCE) := by
  have hy : normalize_angle p.yaw_diff_deg < YAW_DEG_ERRORS_TOLERANCE :=
    lt_trans h (by norm_num [YAW_DEG_ERRORS_TOLERANCE])
  refine ⟨by simpa using hy, ?_⟩
  simp [aligned_with_target_lane, hy]

/-- Witness for C10 at a pose whose normalized heading difference is
-90 degrees: alignment is decided by the crosstrack error alone, and at
crosstrack 0.1 the frame counts as aligned. -/
theorem c10_witness :
    decide (normalize_angle (PoseErr.mk (1/10) (-90)).yaw_diff_deg <
      YAW_DEG_ERRORS_TOLERANCE) = true ∧
    aligned_with_target_lane (PoseErr.mk (1/10) (-90)) = true := by
  have hneg : normalize_angle (PoseErr.mk (1/10) (-90)).yaw_diff_deg < 0 := by
    show normalize_angle (-90) < 0
    rw [normalize_angle_neg90]
    norm_num
  have hcross : (PoseErr.mk (1/10) (-90)).crosstrack_error < CROSSTRACK_ERROR_TOLERANCE := by
    show (1/10 : ℚ) < CROSSTRACK_ERROR_TOLERANCE
    norm_num [CROSSTRACK_ERROR_TOLERANCE]
  have h := c10_yaw_no_abs (PoseErr.mk (1/10) (-90)) hneg
  exact ⟨h.1, h.2.mpr hcross⟩

/-! Step-level helper lemmas. -/

lemma step_fst_done (s : EpisodeState) (f : Frame) :
    (step s f).1.done = (step_success s f || step_early_stop s f) := rfl

lemma step_fst_reward (s : EpisodeState) (f : Frame) :
    (step s f).1.reward =
      (if s.reward_type = RewardType.DENSE then 1 else 0) * (step_progress s f).1 +
        (if step_success s f then 1 else 0) +
        (if step_early_stop s f then (-1 : ℚ) else 0) := rfl

lemma step_fst_counter (s : EpisodeState) (f : Frame) :
    (step s f).1.target_alignment_counter = step_counter s f := rfl

lemma gpc_counter (s : EpisodeState) (f : Frame) :
    ((get_progress_change s f).2).target_alignment_counter =
      s.target_alignment_counter := by
  rw [get_progress_change]
  split <;> split <;> simp

lemma step_snd_counter (s : EpisodeState) (f : Frame) :
    (step s f).2.target_alignment_counter = step_counter s f := by
  show ((step_progress s f).2).target_alignment_counter = step_counter s f
  rw [step_progress, gpc_counter]

/-- C1: on a step where the agent is on the target lane, the alignment
check reports completion, and the external timeout/stuck signal is true,
success wins: `succeeded = true`, `early_stop = false`, `done = true`, and
the reward is the dense term plus the +1 bonus (no -1 penalty). -/
theorem c1_arbiter_success_precedence (s : EpisodeState) (f : Frame)
    (hlane : f.lane_id = s.target_lane_id)
    (halign : (is_lane_aligned s.target_alignment_counter f.pose).1 = true)
    (htimeout : f.timeout_or_stuck = true) :
    step_success s f = true ∧ step_early_stop s f = false ∧
    (step s f).1.done = true ∧
    (step s f).1.reward =
      (if s.reward_type = RewardType.DENSE then 1 else 0) * (step_progress s f).1 + 1 := by
  have hs : step_success s f = true := by
    simp [step_success, hlane, halign]
  have he : step_early_stop s f = false := by
    simp [step_early_stop, hs]
  refine ⟨hs, he, ?_, ?_⟩
  · rw [step_fst_done, hs]
    simp
  · rw [step_fst_reward, hs, he]
    simp

/-- Witness for C1: counter at 9, perfectly aligned frame on the target
lane, timeout firing simultaneously. -/
theorem c1_witness :
    step_success c1_state c1_frame = true ∧
    step_early_stop c1_state c1_frame = false ∧
    (step c1_state c1_frame).1.done = true ∧
    (step c1_state c1_frame).1.reward =
      (if c1_state.reward_type = RewardType.DENSE then 1 else 0) *
        (step_progress c1_state c1_frame).1 + 1 :=
  c1_arbiter_success_precedence c1_state c1_frame rfl
    (by rw [show c1_state.target_alignment_counter = 9 from rfl,
          show c1_frame.pose = ⟨0, 0⟩ from rfl,
          is_lane_aligned_pos 9 ⟨0, 0⟩ aligned_00]
        simp [TARGET_LANE_ALIGNMENT_FRAMES]) rfl

/-- C3 counterexample: a step on which the agent is on the START lane (not
the target lane), yet the success evaluation of line 117 increments the
alignment counter from 3 to 4 — `&` does not short-circuit, so
`_is_lane_aligned` runs and mutates the counter on every step. -/
theorem c3_counterexample :
    c3_frame.lane_id ≠ c3_state.target_lane_id ∧
    c3_state.target_alignment_counter = 3 ∧
    (step c3_state c3_frame).2.target_alignment_counter = 4 := by
  refine ⟨by decide, rfl, ?_⟩
  rw [step_snd_counter]
  show (is_lane_aligned 3 ⟨0, 0⟩).2 = 4
  rw [is_lane_aligned_pos 3 ⟨0, 0⟩ aligned_00]

/-- C3 amended: the alignment check is evaluated on EVERY step, whatever
lane the agent occupies (Python `&` on line 117 evaluates both operands);
the counter after a step is always exactly the update made by
`_is_lane_aligned` on the current frame's pose — incremented when the pose
is aligned with the current waypoint, reset to 0 otherwise — including on
steps where the agent is not on the target lane. -/
theorem c3_alignment_checked_every_step (s : EpisodeState) (f : Frame) :
    (step s f).2.target_alignment_counter =
      (is_lane_aligned s.target_alignment_counter f.pose).2 ∧
    (step s f).1.target_alignment_counter =
      (is_lane_aligned s.target_alignment_counter f.pose).2 :=
  ⟨step_snd_counter s f, step_fst_counter s f⟩

/-! Progress-scorer helper lemmas. -/

lemma calc_progress_change_passed (total chkpt prev dfs dft : ℚ)
    (h1 : total < dfs) (h2 : dft < dfs) :
    calc_progress_change total chkpt prev dfs dft = (0 - prev, 0) := by
  rw [calc_progress_change]
  simp [h1, h2]

lemma gpc_total_some (s : EpisodeState) (f : Frame) (T : ℚ)
    (h : s.total_distance_m = some T) :
    ((get_progress_change s f).2).total_distance_m = some T := by
  rw [get_progress_change]
  simp only [h]
  split <;> simp [h]

lemma gpc_lane_ids (s : EpisodeState) (f : Frame) :
    ((get_progress_change s f).2).start_lane_id = s.start_lane_id ∧
    ((get_progress_change s f).2).target_lane_id = s.target_lane_id := by
  rw [get_progress_change]
  split <;> split <;> simp

lemma gpc_on_lane (s : EpisodeState) (f : Frame) (T : ℚ)
    (hT : s.total_distance_m = some T)
    (h : f.lane_id = s.start_lane_id ∨ f.lane_id = s.target_lane_id) :
    get_progress_change s f =
      ((calc_progress_change T (s.checkpoints_distance_m.getD 0) s.previous_progress
          f.dist_from_start f.dist_from_target).1,
        { s with previous_progress :=
            (calc_progress_change T (s.checkpoints_distance_m.getD 0) s.previous_progress
              f.dist_from_start f.dist_from_target).2 }) := by
  rw [get_progress_change]
  have hcond : (f.lane_id == s.start_lane_id || f.lane_id == s.target_lane_id) = true := by
    rcases h with h | h <;> simp [h]
  simp [hT, hcond]

lemma gpc_off_lane (s : EpisodeState) (f : Frame)
    (h1 : f.lane_id ≠ s.start_lane_id) (h2 : f.lane_id ≠ s.target_lane_id) :
    (get_progress_change s f).1 = 0 ∧
    ((get_progress_change s f).2).previous_progress = s.previous_progress := by
  rw [get_progress_change]
  have hcond : (f.lane_id == s.start_lane_id || f.lane_id == s.target_lane_id) = false := by
    simp [h1, h2]
  simp only [hcond, Bool.false_eq_true, if_false]
  split <;> simp

/-- After the clamp has zeroed the stored progress, every further frame
whose on-lane geometry is still past the target centerline yields a zero
progress change. -/
lemma progress_run_overshoot (T : ℚ) (fs : List Frame) :
    ∀ s : EpisodeState, s.total_distance_m = some T → s.previous_progress = 0 →
    (∀ g ∈ fs, (g.lane_id = s.start_lane_id ∨ g.lane_id = s.target_lane_id) →
      T < g.dist_from_start ∧ g.dist_from_target < g.dist_from_start) →
    ∀ d ∈ (progress_run s fs).1, d = 0 := by
  induction fs with
  | nil => intro s _ _ _ d hd; simp [progress_run] at hd
  | cons f fs ih =>
    intro s hT hprev hfs d hd
    simp only [progress_run, List.mem_cons] at hd
    have hids := gpc_lane_ids s f
    have htail : ∀ g ∈ fs,
        (g.lane_id = ((get_progress_change s f).2).start_lane_id ∨
          g.lane_id = ((get_progress_change s f).2).target_lane_id) →
        T < g.dist_from_start ∧ g.dist_from_target < g.dist_from_start := by
      intro g hg hlg
      refine hfs g (List.mem_cons_of_mem _ hg) ?_
      rwa [hids.1, hids.2] at hlg
    by_cases hlane : f.lane_id = s.start_lane_id ∨ f.lane_id = s.target_lane_id
    · have hover := hfs f (List.mem_cons_self _ _) hlane
      have heq := gpc_on_lane s f T hT hlane
      have hcalc := calc_progress_change_passed T (s.checkpoints_distance_m.getD 0)
        s.previous_progress f.dist_from_start f.dist_from_target hover.1 hover.2
      rcases hd with hd | hd
      · rw [hd, heq]
        show (calc_progress_change T (s.checkpoints_distance_m.getD 0) s.previous_progress
          f.dist_from_start f.dist_from_target).1 = 0
        rw [hcalc, hprev]
        simp
      · refine ih ((get_progress_change s f).2) (gpc_total_some s f T hT) ?_ htail d hd
        rw [heq]
        show (calc_progress_change T (s.checkpoints_distance_m.getD 0) s.previous_progress
          f.dist_from_start f.dist_from_target).2 = 0
        rw [hcalc]
    · push_neg at hlane
      have hoff := gpc_off_lane s f hlane.1 hlane.2
      rcases hd with hd | hd
      · rw [hd]
        exact hoff.1
      · exact ih ((get_progress_change s f).2) (gpc_total_some s f T hT)
          (by rw [hoff.2, hprev]) htail d hd

/-- C4: whenever `passed_target_centerline` holds on a progress query (the
distance from the start waypoint exceeds both the fixed total distance and
the distance from the target waypoint), the computed progress is 0 — the
returned change is `0 - previous_progress` and the stored progress becomes
0 — and on every subsequent frame that keeps overshooting in that
direction the progress change is 0, until the episode ends. -/
theorem c4_overshoot_clamp (T : ℚ) (s : EpisodeState) (f : Frame) (fs : List Frame)
    (hT : s.total_distance_m = some T)
    (hlane : f.lane_id = s.start_lane_id ∨ f.lane_id = s.target_lane_id)
    (hdfs : T < f.dist_from_start)
    (hdft : f.dist_from_target < f.dist_from_start)
    (hfs : ∀ g ∈ fs, (g.lane_id = s.start_lane_id ∨ g.lane_id = s.target_lane_id) →
      T < g.dist_from_start ∧ g.dist_from_target < g.dist_from_start) :
    (get_progress_change s f).1 = 0 - s.previous_progress ∧
    ((get_progress_change s f).2).previous_progress = 0 ∧
    ∀ d ∈ (progress_run ((get_progress_change s f).2) fs).1, d = 0 := by
  have heq := gpc_on_lane s f T hT hlane
  have hcalc := calc_progress_change_passed T (s.checkpoints_distance_m.getD 0)
    s.previous_progress f.dist_from_start f.dist_from_target hdfs hdft
  have h1 : (get_progress_change s f).1 = 0 - s.previous_progress := by
    rw [heq]
    show (calc_progress_change T (s.checkpoints_distance_m.getD 0) s.previous_progress
      f.dist_from_start f.dist_from_target).1 = 0 - s.previous_progress
    rw [hcalc]
  have h2 : ((get_progress_change s f).2).previous_progress = 0 := by
    rw [heq]
    show (calc_progress_change T (s.checkpoints_distance_m.getD 0) s.previous_progress
      f.dist_from_start f.dist_from_target).2 = 0
    rw [hcalc]
  have hids := gpc_lane_ids s f
  refine ⟨h1, h2, progress_run_overshoot T fs ((get_progress_change s f).2)
    (gpc_total_some s f T hT) h2 ?_⟩
  intro g hg hlg
  refine hfs g hg ?_
  rwa [hids.1, hids.2] at hlg

/-- Witness for C4: total distance 10, previous progress 1/2; an overshoot
frame (15 m from start, 12 m from target) zeroes the stored progress, and
a further overshooting frame produces a zero progress change. -/
theorem c4_witness :
    (get_progress_change c4_state c4_frame).1 = 0 - c4_state.previous_progress ∧
    ((get_progress_change c4_state c4_frame).2).previous_progress = 0 ∧
    (get_progress_change ((get_progress_change c4_state c4_frame).2) c4_frame2).1 = 0 := by
  have h := c4_overshoot_clamp 10 c4_state c4_frame [c4_frame2] rfl (Or.inl rfl)
    (by show (10 : ℚ) < 15; norm_num) (by show (12 : ℚ) < 15; norm_num)
    (by intro g hg _
        rw [List.mem_singleton.mp hg]
        exact ⟨by show (10 : ℚ) < 20; norm_num, by show (11 : ℚ) < 20; norm_num⟩)
  refine ⟨h.1, h.2.1, h.2.2 _ ?_⟩
  show (get_progress_change ((get_progress_change c4_state c4_frame).2) c4_frame2).1 ∈
    (progress_run ((get_progress_change c4_state c4_frame).2) [c4_frame2]).1
  simp [progress_run]

lemma calc_progress_change_not_passed (total chkpt prev dfs dft : ℚ)
    (h : ¬(total < dfs ∧ dft < dfs)) :
    calc_progress_change total chkpt prev dfs dft =
      (((ratTrunc ((total - dft) / chkpt) : ℤ) : ℚ) / (checkpoints_number : ℚ) - prev,
        ((ratTrunc ((total - dft) / chkpt) : ℤ) : ℚ) / (checkpoints_number : ℚ)) := by
  rw [calc_progress_change]
  have hcond : (decide (total < dfs) && decide (dft < dfs)) = false := by
    rcases not_and_or.mp h with h | h <;> simp [h]
  simp [hcond]

/-- C5 counterexample: on the episode state right after the first progress
query (total distance 10, checkpoint distance 1, previous progress 0), a
frame on the start lane 110 m away from the target waypoint yields a
progress change of -10, far outside [-1, 1]. -/
theorem c5_counterexample : (get_progress_change c5_state c5_frame).1 < -1 := by
  have heq := gpc_on_lane c5_state c5_frame 10 rfl (Or.inl rfl)
  rw [heq]
  show (calc_progress_change 10 (c5_state.checkpoints_distance_m.getD 0)
    c5_state.previous_progress c5_frame.dist_from_start c5_frame.dist_from_target).1 < -1
  rw [show c5_state.checkpoints_distance_m.getD 0 = 1 from rfl,
    show c5_state.previous_progress = 0 from rfl,
    show c5_frame.dist_from_start = 5 from rfl,
    show c5_frame.dist_from_target = 110 from rfl,
    calc_progress_change_not_passed 10 1 0 5 110 (by norm_num)]
  have hceil : (⌈(-100 : ℚ)⌉ : ℤ) = -100 := by
    rw [show ((-100 : ℚ)) = ((-100 : ℤ) : ℚ) by norm_num]
    exact Int.ceil_intCast (-100)
  norm_num [ratTrunc, checkpoints_number, hceil]

lemma ratTrunc_le_of_le (q b : ℚ) (hb : 0 ≤ b) (h : q ≤ b) :
    ((ratTrunc q : ℤ) : ℚ) ≤ b := by
  rw [ratTrunc]
  split
  · exact le_trans (Int.floor_le q) h
  · rename_i hq
    have hq0 : q ≤ 0 := le_of_lt (lt_of_not_le hq)
    have : (⌈q⌉ : ℤ) ≤ 0 := Int.ceil_le.mpr (by exact_mod_cast hq0)
    calc ((⌈q⌉ : ℤ) : ℚ) ≤ 0 := by exact_mod_cast this
    _ ≤ b := hb

/-- C5 amended: the claim's bound `progress_change ∈ [-1, 1]` holds only
when the stored previous progress and the newly computed progress lie in
[0, 1]; what the code guarantees unconditionally (for the episode geometry
`chkpt = total/10`, `total > 0`, and a nonnegative target distance) is
that the computed progress never exceeds 1, hence the change is at most 1
when the previous progress is nonnegative, and at least -1 when moreover
the new progress is nonnegative and the previous progress is at most 1.
The lower bound -1 fails in general (see the counterexample: change -10). -/
theorem c5_progress_delta_bounds (total chkpt prev dfs dft : ℚ)
    (htot : 0 < total) (hchk : chkpt = total / 10) (hdft : 0 ≤ dft)
    (hprev0 : 0 ≤ prev) (hprev1 : prev ≤ 1) :
    (calc_progress_change total chkpt prev dfs dft).2 ≤ 1 ∧
    (calc_progress_change total chkpt prev dfs dft).1 ≤ 1 ∧
    (0 ≤ (calc_progress_change total chkpt prev dfs dft).2 →
      -1 ≤ (calc_progress_change total chkpt prev dfs dft).1) := by
  have hcn : ((checkpoints_number : ℕ) : ℚ) = 10 := by norm_num [checkpoints_number]
  by_cases hpass : total < dfs ∧ dft < dfs
  · rw [calc_progress_change_passed _ _ _ _ _ hpass.1 hpass.2]
    refine ⟨by norm_num, ?_, fun _ => ?_⟩
    · show (0 : ℚ) - prev ≤ 1
      linarith
    · show (-1 : ℚ) ≤ 0 - prev
      linarith
  · rw [calc_progress_change_not_passed _ _ _ _ _ hpass]
    have hx : (total - dft) / chkpt ≤ 10 := by
      rw [hchk, div_le_iff₀ (by positivity)]
      nlinarith
    have ht : ((ratTrunc ((total - dft) / chkpt) : ℤ) : ℚ) ≤ 10 :=
      ratTrunc_le_of_le _ 10 (by norm_num) hx
    have hp : ((ratTrunc ((total - dft) / chkpt) : ℤ) : ℚ) / (checkpoints_number : ℚ) ≤ 1 := by
      rw [hcn]
      rw [div_le_one (by norm_num)]
      exact ht
    refine ⟨hp, by linarith, fun h0 => by linarith⟩

/-- Witness for C5's amended bounds at total 10, checkpoint 1, previous
progress 1/2, distances 5 (start) and 3 (target): the change lies in
[-1, 1]. -/
theorem c5_witness :
    (calc_progress_change 10 1 (1/2) 5 3).2 ≤ 1 ∧
    (calc_progress_change 10 1 (1/2) 5 3).1 ≤ 1 ∧
    (-1 : ℚ) ≤ (calc_progress_change 10 1 (1/2) 5 3).1 := by
  have h := c5_progress_delta_bounds 10 1 (1/2) 5 3 (by norm_num) (by norm_num)
    (by norm_num) (by norm_num) (by norm_num)
  refine ⟨h.1, h.2.1, h.2.2 ?_⟩
  rw [calc_progress_change_not_passed 10 1 (1/2) 5 3 (by norm_num)]
  have hfloor : (⌊(7 : ℚ)⌋ : ℤ) = 7 := by
    rw [show ((7 : ℚ)) = ((7 : ℤ) : ℚ) by norm_num]
    exact Int.floor_intCast 7
  norm_num [ratTrunc, checkpoints_number, hfloor]

/-- C6: partition assignment is a pure function of the instant's identity
string: the result is TRAIN exactly when the sha1 hash taken mod 100 is
below split_fraction * 100 = 80, and repeated calls on the same inputs are
definitionally equal (the function reads no mutable state; stability
across process restarts holds because sha1, unlike Python's builtin
`hash`, is a fixed function of the string). -/
theorem c6_partition_split (sha1_int : String → ℕ) (instant_str : String) :
    (determine_split sha1_int instant_str = DatasetMode.TRAIN ↔
      sha1_int instant_str % 100 < 80) ∧
    determine_split sha1_int instant_str = determine_split sha1_int instant_str := by
  refine ⟨?_, rfl⟩
  rw [determine_split]
  have key : (((sha1_int instant_str % 100 : ℕ) : ℚ) / 100 < 8 / 10) ↔
      sha1_int instant_str % 100 < 80 := by
    rw [div_lt_iff₀ (by norm_num : (0 : ℚ) < 100)]
    rw [show (8 : ℚ) / 10 * 100 = 80 by norm_num]
    exact_mod_cast Iff.rfl
  split
  · rename_i h
    simp only [true_iff]
    exact key.mp h
  · rename_i h
    constructor
    · intro hc
      exact absurd hc (by simp)
    · intro hlt
      exact absurd (key.mpr hlt) h

/-- C7 counterexample: with a dataset of one instant whose hash lands in
TRAIN, requesting VALIDATION leaves the filtered list empty — yet
construction completes and stores zero instants (lines 56-62 perform no
emptiness check); the failure only appears at `reset`, where
`random.choice([])` finds nothing (IndexError in the source). -/
theorem c7_counterexample :
    init_lane_change_instants c7_hash c7_all DatasetMode.VALIDATION = [] ∧
    random_choice (init_lane_change_instants c7_hash c7_all DatasetMode.VALIDATION) 0 =
      none := by
  have hsplit : determine_split c7_hash "i1" = DatasetMode.TRAIN := by
    rw [determine_split]
    norm_num [c7_hash]
  have hinit : init_lane_change_instants c7_hash c7_all DatasetMode.VALIDATION = [] := by
    rw [init_lane_change_instants, c7_all]
    simp [hsplit]
  exact ⟨hinit, by rw [hinit]; rfl⟩

/-- C7 amended: construction never fails on an empty partition — it stores
the (possibly empty) filtered list; an empty active partition only fails
later, at `reset`, where drawing an instant from the empty list yields
nothing (`random.choice` raises IndexError). -/
theorem c7_empty_partition_reset_fails (sha1_int : String → ℕ)
    (all_instants : List LaneChangeInstant) (dataset_mode : DatasetMode) (k : ℕ)
    (h : init_lane_change_instants sha1_int all_instants dataset_mode = []) :
    random_choice (init_lane_change_instants sha1_int all_instants dataset_mode) k =
      none := by
  rw [h, random_choice]
  rfl

/-- Witness for C7's amended claim at the concrete empty VALIDATION
partition and draw index 3. -/
theorem c7_witness :
    random_choice (init_lane_change_instants c7_hash c7_all DatasetMode.VALIDATION) 3 =
      none := by
  refine c7_empty_partition_reset_fails c7_hash c7_all DatasetMode.VALIDATION 3 ?_
  have hsplit : determine_split c7_hash "i1" = DatasetMode.TRAIN := by
    rw [determine_split]
    norm_num [c7_hash]
  rw [init_lane_change_instants, c7_all]
  simp [hsplit]

/-- C8: `reset` computes `frame_manuveur_start = max(frame_start -
FRAMES_BEFORE_MANUVEUR, 0)` and hands `frame_manuveur_start - 1` to the
trajectory replay (line 85); with frame_start = 100 and FRAMES_BEFORE = 20
the offset is 80 and the replay is reset to frame 79. -/
theorem c8_reset_frame_offset (m : LaneChangeInstant) (frames_before : ℤ)
    (reward_type : RewardType) (start_lane_id target_lane_id : ℤ) :
    (scenario_reset m frames_before reward_type start_lane_id target_lane_id).2 =
      frame_manuveur_start m frames_before - 1 ∧
    frame_manuveur_start m frames_before = max (m.frame_start - frames_before) 0 ∧
    (m.frame_start = 100 → frames_before = 20 →
      frame_manuveur_start m frames_before = 80 ∧
      (scenario_reset m frames_before reward_type start_lane_id target_lane_id).2 = 79) := by
  refine ⟨rfl, rfl, fun h1 h2 => ?_⟩
  have hoff : frame_manuveur_start m frames_before = 80 := by
    rw [frame_manuveur_start, h1, h2]
    decide
  exact ⟨hoff, by show frame_manuveur_start m frames_before - 1 = 79; rw [hoff]; decide⟩

/-- Witness for C8 at a maneuver with frame_start = 100 and
FRAMES_BEFORE = 20. -/
theorem c8_witness :
    frame_manuveur_start c8_m 20 = 80 ∧
    (scenario_reset c8_m 20 RewardType.DENSE 1 2).2 = 79 :=
  (c8_reset_frame_offset c8_m 20 RewardType.DENSE 1 2).2.2 rfl rfl

/-- C9 counterexample: after a `reset`, a step with the agent off both
expected lanes reports `done = true` (early stop) — and a second `step`
without any intervening `reset` still succeeds, silently producing another
step result: the scenario keeps no terminal state, contradicting the
claim that it must fail loudly. -/
theorem c9_counterexample :
    (scn_step c9_scn c9_frame).map (fun r => r.1.done) = some true ∧
    ((scn_step c9_scn c9_frame).bind (fun r => scn_step r.2 c9_frame)).isSome = true := by
  exact ⟨rfl, rfl⟩

/-- C9 amended: calling `step` before any `reset` fails (the per-episode
attributes are unset, an `AttributeError` in the source, `none` here); but
calling `step` again after a step — even one that reported `done` — does
not fail: there is no terminal-state guard, so a further step silently
produces another result. -/
theorem c9_step_lifecycle (sc : NGSimScn) (f g : Frame) (es : EpisodeState)
    (h : sc.episode = some es) :
    (scn_step sc f).isSome = true ∧
    ((scn_step sc f).bind (fun r => scn_step r.2 g)).isSome = true ∧
    (∀ sc2 : NGSimScn, sc2.episode = none → scn_step sc2 f = none) := by
  refine ⟨?_, ?_, ?_⟩
  · simp [scn_step, h]
  · simp [scn_step, h]
  · intro sc2 h2
    simp [scn_step, h2]

/-- Witness for C9's amended claim: a reset scenario steps twice without
failure; the never-reset scenario cannot step at all. -/
theorem c9_witness :
    (scn_step c9_scn c9_frame).isSome = true ∧
    ((scn_step c9_scn c9_frame).bind (fun r => scn_step r.2 c9_frame)).isSome = true ∧
    scn_step c9_none_scn c9_frame = none := by
  have h := c9_step_lifecycle c9_scn c9_frame c9_frame c9_state rfl
  exact ⟨h.1, h.2.1, h.2.2 c9_none_scn rfl⟩

end NGSim
